import Mathlib

/-!
Verification of the DocuLens backend (image/PDF → DOCX/PDF/TXT converter).

Shallow embedding of `src/backend/services/document.py` (the three renderers
of `DocumentService`) and `src/backend/main.py` (the `convert_files`
orchestrator).  Elements are the loosely-typed dicts produced by the LLM
structure-extraction step: optional `type`, `text` and `items` keys.  The
DOCX and PDF renderers are embedded as traces of the library calls they
make (python-docx resp. fpdf2); the TXT renderer is embedded as the string
it encodes into the output buffer.
-/

namespace DocuLens

/-- One element dict: optional `"type"`, `"text"` and `"items"` keys
(`element.get("type", "paragraph")` etc. in the source). -/
structure Element where
  type? : Option String
  text? : Option String
  items? : Option (List String)
deriving Repr, DecidableEq

/-- `element.get("type", "paragraph")`. -/
def Element.elType (e : Element) : String := e.type?.getD "paragraph"

/-- `element.get("text", "")`. -/
def Element.text (e : Element) : String := e.text?.getD ""

/-- `element.get("items", [])`. -/
def Element.items (e : Element) : List String := e.items?.getD []

/-- The structured-JSON document: a dict with an optional `"elements"` key. -/
structure Structure where
  elements? : Option (List Element)
deriving Repr, DecidableEq

/-- `structure.get("elements", [])`. -/
def Structure.elements (s : Structure) : List Element := s.elements?.getD []

/-- Python `"\n".join(lines)`. -/
def joinLines : List String → String
  | [] => ""
  | [x] => x
  | x :: y :: xs => x ++ "\n" ++ joinLines (y :: xs)

/-- The lines `DocumentService.generate_txt` appends for one element
(document.py lines 109-134). -/
def txtElementLines (e : Element) : List String :=
  if e.elType = "heading1" then ["# " ++ e.text, ""]
  else if e.elType = "heading2" then ["## " ++ e.text, ""]
  else if e.elType = "heading3" then ["### " ++ e.text, ""]
  else if e.elType = "bullet_list" then
    (e.items.map (fun item => "  - " ++ item)) ++ [""]
  else if e.elType = "numbered_list" then
    (e.items.enum.map (fun p => "  " ++ Nat.repr (p.1 + 1) ++ ". " ++ p.2)) ++ [""]
  else [e.text, ""]

/-- `DocumentService.generate_txt`: the string written (UTF-8 encoded) into
the returned buffer. -/
def generate_txt (s : Structure) : String :=
  joinLines (s.elements.flatMap txtElementLines)

/-- UTF-8 encoding of one character, as the list of its byte values. -/
def utf8EncodeChar (c : Char) : List Nat :=
  let n := c.toNat
  if n < 128 then [n]
  else if n < 2048 then [192 + n / 64, 128 + n % 64]
  else if n < 65536 then [224 + n / 4096, 128 + (n / 64) % 64, 128 + n % 64]
  else [240 + n / 262144, 128 + (n / 4096) % 64, 128 + (n / 64) % 64, 128 + n % 64]

/-- UTF-8 encoding of a string, as the list of its byte values. -/
def utf8Encode (s : String) : List Nat := s.data.flatMap utf8EncodeChar

/-- The byte content of the buffer returned by `generate_txt`
(`content.encode("utf-8")`). -/
def generate_txt_bytes (s : Structure) : List Nat := utf8Encode (generate_txt s)

/-- One python-docx call made by `DocumentService.generate_docx`. -/
inductive DocxOp where
  | setNormalFont (family : String) (sizePt : Nat)
  | addHeading (text : String) (level : Nat)
  | addParagraph (text : String) (style : Option String)
deriving Repr, DecidableEq

/-- The python-docx calls `generate_docx` makes for one element
(document.py lines 30-49). -/
def docxElementOps (e : Element) : List DocxOp :=
  if e.elType = "heading1" then [.addHeading e.text 1]
  else if e.elType = "heading2" then [.addHeading e.text 2]
  else if e.elType = "heading3" then [.addHeading e.text 3]
  else if e.elType = "bullet_list" then
    e.items.map (fun item => .addParagraph item (some "List Bullet"))
  else if e.elType = "numbered_list" then
    e.items.map (fun item => .addParagraph item (some "List Number"))
  else [.addParagraph e.text none]

/-- `DocumentService.generate_docx`, as the trace of python-docx calls that
determine the saved byte stream. -/
def generate_docx (s : Structure) : List DocxOp :=
  .setNormalFont "Arial" 11 :: s.elements.flatMap docxElementOps

/-- One fpdf2 call made by `DocumentService.generate_pdf`.
`setXFromLeftMargin off` stands for `pdf.set_x(pdf.l_margin + off)`. -/
inductive PdfOp where
  | setAutoPageBreak (auto : Bool) (margin : Nat)
  | addPage
  | setFont (family : String) (style : String) (size : Nat)
  | ln (h : Nat)
  | multiCell (w : Nat) (h : Nat) (text : String)
  | setXFromLeftMargin (off : Nat)
deriving Repr, DecidableEq

/-- The `sizes` dict of the heading branch of `generate_pdf`
(document.py line 74). -/
def headingSizes : List (String × Nat) :=
  [("heading1", 22), ("heading2", 18), ("heading3", 14)]

/-- The fpdf2 calls `generate_pdf` makes for one element (document.py lines
69-95).  The heading branch reads `sizes[el_type]`; a missing key would be a
`KeyError`, modelled as `none`. -/
def pdfElementOps (e : Element) : Option (List PdfOp) :=
  if e.elType = "heading1" ∨ e.elType = "heading2" ∨ e.elType = "heading3" then
    match headingSizes.lookup e.elType with
    | none => none
    | some sz =>
        some [.setFont "Helvetica" "B" sz, .ln 4, .multiCell 0 10 e.text,
              .ln 2, .setFont "Helvetica" "" 11]
  else if e.elType = "bullet_list" then
    some (e.items.flatMap (fun item =>
      [.setXFromLeftMargin 10, .multiCell 0 7 ("•  " ++ item)]))
  else if e.elType = "numbered_list" then
    some (e.items.enum.flatMap (fun p =>
      [.setXFromLeftMargin 10,
       .multiCell 0 7 (Nat.repr (p.1 + 1) ++ ".  " ++ p.2)]))
  else
    some [.multiCell 0 7 e.text, .ln 2]

/-- The fpdf2 calls of the element loop of `generate_pdf` (document.py
lines 69-95), in loop order; an exception at any element aborts the whole
render, hence `none`. -/
def pdfBodyOps : List Element → Option (List PdfOp)
  | [] => some []
  | e :: es =>
    match pdfElementOps e, pdfBodyOps es with
    | some ops, some rest => some (ops ++ rest)
    | _, _ => none

/-- `DocumentService.generate_pdf`, as the trace of fpdf2 calls that
determine the output byte stream; `none` models an uncaught exception. -/
def generate_pdf (s : Structure) : Option (List PdfOp) :=
  (pdfBodyOps s.elements).map (fun body =>
    [.setAutoPageBreak true 15, .addPage, .setFont "Helvetica" "" 11] ++ body)

/-! ## The conversion orchestrator (`convert_files` in main.py)

File contents are abstracted as a type `β`; the external collaborators
(the PDF rasterizer, the OCR service and the LLM structure extraction) are
deterministic function parameters gathered in `Env`. -/

/-- One uploaded file: its declared content type (`None` possible in
FastAPI, the source does `content_type or ""`), its filename (likewise
optional) and its raw bytes. -/
structure UploadFile (β : Type) where
  contentType : Option String
  filename : Option String
  content : β
deriving Repr, DecidableEq

/-- The external collaborators used by `convert_files`:
`pdf_extractor.extract_images`, `ocr_service.detect_text` and
`llm_service.extract_structure`. -/
structure Env (β : Type) where
  extractImages : β → List β
  ocr : β → String
  extractStructure : String → Structure

/-- `ALLOWED_IMAGE_TYPES` (main.py line 38). -/
def ALLOWED_IMAGE_TYPES : List String :=
  ["image/jpeg", "image/png", "image/webp", "image/gif", "image/bmp", "image/tiff"]

/-- `ALLOWED_PDF_TYPE` (main.py line 39). -/
def ALLOWED_PDF_TYPE : String := "application/pdf"

/-- `OUTPUT_FORMATS` (main.py lines 41-57): format key ↦
(method name, media type, extension). -/
def OUTPUT_FORMATS : List (String × String × String × String) :=
  [("docx", ("generate_docx",
    "application/vnd.openxmlformats-officedocument.wordprocessingml.document",
    ".docx")),
   ("pdf", ("generate_pdf", "application/pdf", ".pdf")),
   ("txt", ("generate_txt", "text/plain; charset=utf-8", ".txt"))]

/-- The HTTP-visible failures `convert_files` raises itself. -/
inductive ConvertError where
  | unsupportedFormat (fmt : String)
  | unsupportedFileType (contentType : String)
  | noValidFiles
  | noTextDetected
  | processingFailure (msg : String)
deriving Repr, DecidableEq

/-- The `detail` string of each `HTTPException` raised by `convert_files`. -/
def ConvertError.detail : ConvertError → String
  | .unsupportedFormat f => "Unsupported format: " ++ f
  | .unsupportedFileType t =>
      "Unsupported file type: " ++ t ++ ". Upload images or PDFs."
  | .noValidFiles => "No valid files uploaded."
  | .noTextDetected => "No text could be detected in any of the uploaded files."
  | .processingFailure m => m

/-- Phase 1 of `convert_files` (main.py lines 83-102): expand PDFs into
page images, pass single images through, and fail on the first file whose
declared type is neither. -/
def collectImages (env : Env β) : List (UploadFile β) → Except ConvertError (List β)
  | [] => .ok []
  | f :: rest =>
    if f.contentType.getD "" = ALLOWED_PDF_TYPE then
      (collectImages env rest).map (fun imgs => env.extractImages f.content ++ imgs)
    else if f.contentType.getD "" ∈ ALLOWED_IMAGE_TYPES then
      (collectImages env rest).map (fun imgs => f.content :: imgs)
    else .error (.unsupportedFileType (f.contentType.getD ""))

/-- Phases 2-3 of `convert_files` (main.py lines 109-123): OCR each image
unit in order, skip units with empty text, and extend the running merged
element list with the extracted structure of the rest. -/
def mergeOcr (env : Env β) (imgs : List β) : List Element :=
  imgs.foldl (fun acc img =>
    if env.ocr img = "" then acc
    else acc ++ (env.extractStructure (env.ocr img)).elements) []

/-- The merge of per-unit Documents, as `convert_files` performs it:
`merged_elements.extend(elements)` applied to each unit's element list in
input order (main.py lines 109-123, with the per-unit extraction factored
out). -/
def mergeDocuments (docs : List (List Element)) : List Element :=
  docs.foldl (fun acc els => acc ++ els) []

/-- The output of the renderer selected by `output_format`. -/
inductive RenderOutput where
  | docx (ops : List DocxOp)
  | pdf (ops : List PdfOp)
  | txt (content : String)
deriving Repr, DecidableEq

/-- `getattr(doc_service, fmt["method"])(merged_structure)` (main.py lines
135-136): dynamic dispatch on the method name stored in `OUTPUT_FORMATS`. -/
def callRenderMethod (method : String) (s : Structure) : Option RenderOutput :=
  if method = "generate_docx" then some (.docx (generate_docx s))
  else if method = "generate_pdf" then (generate_pdf s).map .pdf
  else if method = "generate_txt" then some (.txt (generate_txt s))
  else none

/-- Python `s.rfind(c)`: index of the last occurrence of `c`, `-1` if none. -/
def pyRfind (c : Char) (cs : List Char) : Int :=
  cs.enum.foldl (fun acc p => if p.2 = c then (p.1 : Int) else acc) (-1)

/-- The root part of `os.path.splitext(p)` (posix): cut at the last dot
that lies after the last `/` and is preceded there by at least one non-dot
character. -/
def splitextRoot (p : String) : String :=
  let cs := p.data
  let sepIndex := pyRfind '/' cs
  let dotIndex := pyRfind '.' cs
  if sepIndex < dotIndex then
    if ((cs.take dotIndex.toNat).drop (sepIndex + 1).toNat).any (fun ch => ch ≠ '.')
    then String.mk (cs.take dotIndex.toNat)
    else p
  else p

/-- `files[0].filename or "document"` (main.py line 139). -/
def firstFilename (files : List (UploadFile β)) : String :=
  match files.head? with
  | some f =>
    match f.filename with
    | some nm => if nm = "" then "document" else nm
    | none => "document"
  | none => "document"

/-- The successful response of `convert_files`: rendered output, the
`Content-Disposition` filename, and the media type. -/
structure ConvertSuccess where
  output : RenderOutput
  filename : String
  mediaType : String
deriving Repr, DecidableEq

deriving instance DecidableEq for Except

/-- The observable outcome of one `convert_files` request: its result, the
image units sent to OCR, and whether a renderer was invoked. -/
structure ConvertResult (β : Type) where
  result : Except ConvertError ConvertSuccess
  ocrCalls : List β
  rendererInvoked : Bool
deriving Repr, DecidableEq

/-- `convert_files` (main.py lines 66-156): validate the format, collect
image units, OCR + structure-extract + merge, render, and name the file. -/
def convert (env : Env β) (files : List (UploadFile β)) (output_format : String) :
    ConvertResult β :=
  match OUTPUT_FORMATS.lookup output_format with
  | none => ⟨.error (.unsupportedFormat output_format), [], false⟩
  | some (method, mediaType, extension) =>
    match collectImages env files with
    | .error e => ⟨.error e, [], false⟩
    | .ok imgs =>
      if imgs.isEmpty then ⟨.error .noValidFiles, [], false⟩
      else
        if (mergeOcr env imgs).isEmpty then ⟨.error .noTextDetected, imgs, false⟩
        else
          match callRenderMethod method ⟨some (mergeOcr env imgs)⟩ with
          | none => ⟨.error (.processingFailure "AttributeError"), imgs, true⟩
          | some out =>
            ⟨.ok ⟨out,
              (if files.length > 1 then
                splitextRoot (firstFilename files) ++ "_and_"
                  ++ Nat.repr (files.length - 1) ++ "_more"
              else splitextRoot (firstFilename files)) ++ extension,
              mediaType⟩, imgs, true⟩

/-- A file the classification loop accepts: declared PDF or a recognized
image type. -/
def isSupportedType (f : UploadFile β) : Prop :=
  f.contentType.getD "" = ALLOWED_PDF_TYPE ∨ f.contentType.getD "" ∈ ALLOWED_IMAGE_TYPES

instance (f : UploadFile β) : Decidable (isSupportedType f) :=
  inferInstanceAs (Decidable (_ ∨ _))

/-! ## Concrete fixtures used by the witness theorems -/

/-- A deterministic environment over `Nat`-coded image buffers: any PDF
rasterizes to pages `101`, `102`, `103`; OCR finds text `"t" ++ n` on
buffer `n` except on buffer `102`, which is blank; structure extraction
wraps the text in a single untyped element. -/
def wEnv : Env Nat :=
  ⟨fun _ => [101, 102, 103],
   fun u => if u = 102 then "" else "t" ++ Nat.repr u,
   fun t => ⟨some [⟨none, some t, none⟩]⟩⟩

/-- Three image files, the first named `report.png`. -/
def wfiles3 : List (UploadFile Nat) :=
  [⟨some "image/png", some "report.png", 1⟩,
   ⟨some "image/png", some "b.png", 2⟩,
   ⟨some "image/png", some "c.png", 3⟩]

/-- Two image files followed by one PDF file. -/
def wfilesMixed : List (UploadFile Nat) :=
  [⟨some "image/png", some "a.png", 1⟩,
   ⟨some "image/jpeg", some "b.jpg", 2⟩,
   ⟨some "application/pdf", some "c.pdf", 3⟩]

/-- An upload list containing a `.gif` declared as `application/json`. -/
def wfilesBad : List (UploadFile Nat) :=
  [⟨some "image/png", some "x.png", 1⟩,
   ⟨some "application/json", some "a.gif", 7⟩]

/-- An environment whose OCR never detects text. -/
def wEnvBlank : Env Nat :=
  ⟨fun _ => [101, 102, 103], fun _ => "", fun t => ⟨some [⟨none, some t, none⟩]⟩⟩

/-- The successful response of `convert wEnv wfiles3 "docx"`. -/
def wSuccess : ConvertSuccess :=
  ⟨.docx [.setNormalFont "Arial" 11, .addParagraph "t1" none,
          .addParagraph "t2" none, .addParagraph "t3" none],
   "report_and_2_more.docx",
   "application/vnd.openxmlformats-officedocument.wordprocessingml.document"⟩

/-! ## Helper lemmas -/

/-- Every type string falls into one of the six branches of
`pdfElementOps`, and each branch succeeds; in particular the `sizes` dict
lookup of the heading branch cannot raise. -/
theorem pdfElementOps_isSome (e : Element) : (pdfElementOps e).isSome := by
  unfold pdfElementOps
  by_cases h : e.elType = "heading1" ∨ e.elType = "heading2" ∨ e.elType = "heading3"
  · rw [if_pos h]
    rcases h with h | h | h <;> rw [h] <;> rfl
  · rw [if_neg h]
    by_cases hb : e.elType = "bullet_list"
    · rw [if_pos hb]; rfl
    · rw [if_neg hb]
      by_cases hn : e.elType = "numbered_list"
      · rw [if_pos hn]; rfl
      · rw [if_neg hn]; rfl

/-- The PDF element loop never raises and emits the per-element op lists
in element order. -/
theorem pdfBodyOps_eq (l : List Element) :
    pdfBodyOps l = some (l.flatMap (fun e => (pdfElementOps e).getD [])) := by
  induction l with
  | nil => rfl
  | cons e es ih =>
    obtain ⟨ops, hops⟩ := Option.isSome_iff_exists.mp (pdfElementOps_isSome e)
    simp [pdfBodyOps, hops, ih]

/-- `"\n".join` distributes over concatenation of nonempty line lists. -/
theorem joinLines_append (l1 l2 : List String) (h1 : l1 ≠ []) (h2 : l2 ≠ []) :
    joinLines (l1 ++ l2) = joinLines l1 ++ "\n" ++ joinLines l2 := by
  induction l1 with
  | nil => exact absurd rfl h1
  | cons x xs ih =>
    cases xs with
    | nil =>
      cases l2 with
      | nil => exact absurd rfl h2
      | cons y ys => simp [joinLines]
    | cons z zs =>
      have ih2 := ih (List.cons_ne_nil z zs)
      show x ++ "\n" ++ joinLines ((z :: zs) ++ l2)
          = (x ++ "\n" ++ joinLines (z :: zs)) ++ "\n" ++ joinLines l2
      rw [ih2]
      simp [String.append_assoc]

/-- Every element contributes at least one line to the TXT output. -/
theorem txtElementLines_ne_nil (e : Element) : txtElementLines e ≠ [] := by
  unfold txtElementLines
  split
  · simp
  · split
    · simp
    · split
      · simp
      · split
        · simp
        · split
          · simp
          · simp

/-- The TXT line list of a nonempty document is nonempty. -/
theorem txtLines_ne_nil (l : List Element) (h : l ≠ []) :
    l.flatMap txtElementLines ≠ [] := by
  cases l with
  | nil => exact absurd rfl h
  | cons e es =>
    simp only [List.flatMap_cons]
    intro hc
    exact txtElementLines_ne_nil e (List.append_eq_nil.mp hc).1

/-- The OCR loop of `convert_files`, with the running accumulator made
explicit. -/
theorem mergeOcr_loop (env : Env β) (imgs : List β) (acc : List Element) :
    imgs.foldl (fun acc img =>
        if env.ocr img = "" then acc
        else acc ++ (env.extractStructure (env.ocr img)).elements) acc
      = acc ++ imgs.flatMap (fun u =>
          if env.ocr u = "" then []
          else (env.extractStructure (env.ocr u)).elements) := by
  induction imgs generalizing acc with
  | nil => simp
  | cons b bs ih =>
    simp only [List.foldl_cons, List.flatMap_cons]
    by_cases h : env.ocr b = ""
    · rw [if_pos h, ih, if_pos h]
      simp
    · rw [if_neg h, ih, if_neg h]
      simp [List.append_assoc]

/-- The running merged element list equals, unit by unit, the flattened
contributions of the units: an empty-OCR unit contributes nothing and the
rest contribute their extracted elements in input order. -/
theorem mergeOcr_eq_flatMap (env : Env β) (imgs : List β) :
    mergeOcr env imgs = imgs.flatMap (fun u =>
      if env.ocr u = "" then []
      else (env.extractStructure (env.ocr u)).elements) := by
  unfold mergeOcr
  rw [mergeOcr_loop]
  simp

/-- The incremental `extend` merge, with the accumulator made explicit. -/
theorem mergeDocuments_loop (docs : List (List Element)) (acc : List Element) :
    docs.foldl (fun acc els => acc ++ els) acc = acc ++ docs.flatten := by
  induction docs generalizing acc with
  | nil => simp
  | cons d ds ih => simp [List.foldl_cons, ih, List.append_assoc]

/-- No image MIME type is the PDF MIME type. -/
theorem image_type_ne_pdf (ct : String) (h : ct ∈ ALLOWED_IMAGE_TYPES) :
    ct ≠ ALLOWED_PDF_TYPE := by
  intro heq
  rw [heq] at h
  revert h
  decide

/-- If the upload contains an unsupported file, the classification loop
fails with `UnsupportedFileType` carrying that file's declared type. -/
theorem collectImages_error_of_unsupported (env : Env β)
    (files : List (UploadFile β)) (hbad : ∃ f ∈ files, ¬ isSupportedType f) :
    ∃ f ∈ files, ¬ isSupportedType f ∧
      collectImages env files = .error (.unsupportedFileType (f.contentType.getD "")) := by
  induction files with
  | nil => simp at hbad
  | cons g gs ih =>
    by_cases hg : isSupportedType g
    · have hrest : ∃ f ∈ gs, ¬ isSupportedType f := by
        rcases hbad with ⟨f, hf, hnf⟩
        rcases List.mem_cons.mp hf with rfl | hmem
        · exact absurd hg hnf
        · exact ⟨f, hmem, hnf⟩
      obtain ⟨f, hmem, hnf, herr⟩ := ih hrest
      refine ⟨f, List.mem_cons_of_mem _ hmem, hnf, ?_⟩
      unfold collectImages
      rcases hg with hpdf | himg
      · rw [if_pos hpdf, herr]
        rfl
      · rw [if_neg (image_type_ne_pdf _ himg), if_pos himg, herr]
        rfl
    · refine ⟨g, List.mem_cons_self g gs, hg, ?_⟩
      unfold collectImages
      rw [isSupportedType, not_or] at hg
      rw [if_neg hg.1, if_neg hg.2]

/-! ## Claim theorems -/

/-- C1, counterexample: on the document `[heading1 "Title",
bullet_list ["A", "B"]]` the TXT renderer does NOT produce the UTF-8 bytes
of `"# Title\n\n  - A\n  - B\n\n"`: the final empty line contributes only
the separating newline before it, not a trailing one after it. -/
theorem txt_scenario_counterexample :
    generate_txt_bytes ⟨some [⟨some "heading1", some "Title", none⟩,
        ⟨some "bullet_list", none, some ["A", "B"]⟩]⟩
      ≠ utf8Encode "# Title\n\n  - A\n  - B\n\n" := by
  decide

/-- C1, amended: on the document `[heading1 "Title", bullet_list
["A", "B"]]` the TXT renderer produces exactly the UTF-8 bytes of
`"# Title\n\n  - A\n  - B\n"` — the per-element lines
`["# Title", "", "  - A", "  - B", ""]` joined by a single newline
character. -/
theorem txt_scenario_heading_bullets :
    generate_txt ⟨some [⟨some "heading1", some "Title", none⟩,
        ⟨some "bullet_list", none, some ["A", "B"]⟩]⟩
      = "# Title\n\n  - A\n  - B\n" ∧
    generate_txt ⟨some [⟨some "heading1", some "Title", none⟩,
        ⟨some "bullet_list", none, some ["A", "B"]⟩]⟩
      = joinLines ["# Title", "", "  - A", "  - B", ""] ∧
    generate_txt_bytes ⟨some [⟨some "heading1", some "Title", none⟩,
        ⟨some "bullet_list", none, some ["A", "B"]⟩]⟩
      = utf8Encode "# Title\n\n  - A\n  - B\n" := by
  refine ⟨by decide, by decide, by decide⟩

/-- C3: merging is order-preserving concatenation — the merged element
sequence is the flattened concatenation of the inputs in input order,
`merge [merge [a, b], c] = merge [a, b, c]`, the empty input yields the
empty Document, and the incremental OCR-loop merge of `convert_files` is
exactly this merge applied to the per-unit element lists. -/
theorem merge_is_ordered_concat (docs : List (List Element))
    (a b c : List Element) (env : Env β) (imgs : List β) :
    mergeDocuments docs = docs.flatten ∧
    mergeDocuments [mergeDocuments [a, b], c] = mergeDocuments [a, b, c] ∧
    mergeDocuments ([] : List (List Element)) = [] ∧
    mergeOcr env imgs = mergeDocuments (imgs.map (fun u =>
      if env.ocr u = "" then []
      else (env.extractStructure (env.ocr u)).elements)) := by
  refine ⟨?_, ?_, rfl, ?_⟩
  · unfold mergeDocuments
    rw [mergeDocuments_loop]
    simp
  · unfold mergeDocuments
    simp [List.append_assoc]
  · rw [mergeOcr_eq_flatMap]
    unfold mergeDocuments
    rw [mergeDocuments_loop]
    simp
    rfl

/-- C9: each of the three renderers is total — dispatching any of the
three method names on any well-formed Document returns an output byte
stream and never fails; in particular the `sizes[el_type]` lookup of the
PDF heading branch never raises. -/
theorem renderers_total (s : Structure) :
    (∃ o, callRenderMethod "generate_docx" s = some o) ∧
    (∃ o, callRenderMethod "generate_pdf" s = some o) ∧
    (∃ o, callRenderMethod "generate_txt" s = some o) := by
  refine ⟨⟨_, rfl⟩, ⟨.pdf ([.setAutoPageBreak true 15, .addPage,
      .setFont "Helvetica" "" 11]
    ++ s.elements.flatMap (fun e => (pdfElementOps e).getD [])), ?_⟩, ⟨_, rfl⟩⟩
  show (generate_pdf s).map RenderOutput.pdf = _
  unfold generate_pdf
  rw [pdfBodyOps_eq]
  rfl

/-- C4: the PDF renderer uses exactly the claimed numeric constants —
auto page break with margin 15, body font size 11, bold headings at sizes
22/18/14 with the font reset to 11 afterwards, body text in a multi-line
cell at line height 7 followed by a gap of 2, and list items at line
height 7 indented 10 units past the left margin, bullet items prefixed by
a bullet glyph and numbered items by their 1-based index and a period. -/
theorem pdf_numeric_constants (s : Structure) (text : String)
    (items : List String) :
    generate_pdf s = some ([.setAutoPageBreak true 15, .addPage,
        .setFont "Helvetica" "" 11]
      ++ s.elements.flatMap (fun e => (pdfElementOps e).getD [])) ∧
    pdfElementOps ⟨some "heading1", some text, none⟩
      = some [.setFont "Helvetica" "B" 22, .ln 4, .multiCell 0 10 text,
              .ln 2, .setFont "Helvetica" "" 11] ∧
    pdfElementOps ⟨some "heading2", some text, none⟩
      = some [.setFont "Helvetica" "B" 18, .ln 4, .multiCell 0 10 text,
              .ln 2, .setFont "Helvetica" "" 11] ∧
    pdfElementOps ⟨some "heading3", some text, none⟩
      = some [.setFont "Helvetica" "B" 14, .ln 4, .multiCell 0 10 text,
              .ln 2, .setFont "Helvetica" "" 11] ∧
    pdfElementOps ⟨some "paragraph", some text, none⟩
      = some [.multiCell 0 7 text, .ln 2] ∧
    pdfElementOps ⟨some "bullet_list", none, some items⟩
      = some (items.flatMap (fun item =>
          [.setXFromLeftMargin 10, .multiCell 0 7 ("•  " ++ item)])) ∧
    pdfElementOps ⟨some "numbered_list", none, some items⟩
      = some (items.enum.flatMap (fun p =>
          [.setXFromLeftMargin 10,
           .multiCell 0 7 (Nat.repr (p.1 + 1) ++ ".  " ++ p.2)])) := by
  refine ⟨?_, rfl, rfl, rfl, rfl, rfl, rfl⟩
  unfold generate_pdf
  rw [pdfBodyOps_eq]
  rfl

/-- C2: an element whose type is not one of the five handled type strings
(which covers an absent type key only when read back as the default
`"paragraph"`, and any unknown string) renders, in each of the three
renderers and in any document context, exactly like a paragraph element
carrying the same text (the empty string when the text key is absent). -/
theorem unknown_kind_renders_as_paragraph (e : Element)
    (pre post : List Element)
    (h : e.elType ∉ ["heading1", "heading2", "heading3",
                     "bullet_list", "numbered_list"]) :
    generate_docx ⟨some (pre ++ e :: post)⟩
      = generate_docx ⟨some (pre ++ ⟨some "paragraph", some e.text, none⟩ :: post)⟩ ∧
    generate_pdf ⟨some (pre ++ e :: post)⟩
      = generate_pdf ⟨some (pre ++ ⟨some "paragraph", some e.text, none⟩ :: post)⟩ ∧
    generate_txt ⟨some (pre ++ e :: post)⟩
      = generate_txt ⟨some (pre ++ ⟨some "paragraph", some e.text, none⟩ :: post)⟩ := by
  simp only [List.mem_cons, List.not_mem_nil, or_false, not_or] at h
  obtain ⟨h1, h2, h3, h4, h5⟩ := h
  have hor : ¬ (e.elType = "heading1" ∨ e.elType = "heading2"
      ∨ e.elType = "heading3") := by
    simp [h1, h2, h3]
  have hdocx : docxElementOps e = [.addParagraph e.text none] := by
    unfold docxElementOps
    rw [if_neg h1, if_neg h2, if_neg h3, if_neg h4, if_neg h5]
  have hpdf : pdfElementOps e = some [.multiCell 0 7 e.text, .ln 2] := by
    unfold pdfElementOps
    rw [if_neg hor, if_neg h4, if_neg h5]
  have htxt : txtElementLines e = [e.text, ""] := by
    unfold txtElementLines
    rw [if_neg h1, if_neg h2, if_neg h3, if_neg h4, if_neg h5]
  refine ⟨?_, ?_, ?_⟩
  · simp only [generate_docx, Structure.elements, Option.getD_some,
      List.flatMap_append, List.flatMap_cons, hdocx]
    rfl
  · unfold generate_pdf
    rw [pdfBodyOps_eq, pdfBodyOps_eq]
    simp only [Structure.elements, Option.getD_some, List.flatMap_append,
      List.flatMap_cons, hpdf]
    rfl
  · simp only [generate_txt, Structure.elements, Option.getD_some,
      List.flatMap_append, List.flatMap_cons, htxt]
    rfl

/-- C2 witness: a `table`-typed element with text `"X"` renders like
`paragraph "X"` in all three renderers, in a document that also carries a
heading. -/
theorem unknown_kind_renders_as_paragraph_witness :
    generate_docx ⟨some [⟨some "heading1", some "T", none⟩,
        ⟨some "table", some "X", none⟩]⟩
      = generate_docx ⟨some [⟨some "heading1", some "T", none⟩,
        ⟨some "paragraph", some "X", none⟩]⟩ ∧
    generate_pdf ⟨some [⟨some "heading1", some "T", none⟩,
        ⟨some "table", some "X", none⟩]⟩
      = generate_pdf ⟨some [⟨some "heading1", some "T", none⟩,
        ⟨some "paragraph", some "X", none⟩]⟩ ∧
    generate_txt ⟨some [⟨some "heading1", some "T", none⟩,
        ⟨some "table", some "X", none⟩]⟩
      = generate_txt ⟨some [⟨some "heading1", some "T", none⟩,
        ⟨some "paragraph", some "X", none⟩]⟩ := by
  exact unknown_kind_renders_as_paragraph ⟨some "table", some "X", none⟩
    [⟨some "heading1", some "T", none⟩] [] (by decide)

/-- C10, counterexample: a Document consisting of a single empty
bullet list renders, as TXT, to the very same output (the empty string) as
the Document with that element removed — not to an output one newline
longer. -/
theorem empty_list_singleton_counterexample :
    generate_txt ⟨some [⟨some "bullet_list", none, some []⟩]⟩
      = generate_txt ⟨some []⟩ ∧
    generate_txt ⟨some [⟨some "bullet_list", none, some []⟩]⟩ = "" := by
  exact ⟨rfl, rfl⟩

/-- C10, amended: an empty-items bullet or numbered list yields zero item
lines but still its terminating blank line in TXT; when the document has
at least one other element the TXT output gains exactly one extra newline
over the document without the element, while for the document consisting
only of that element both outputs are the empty string; DOCX and PDF emit
no operation at all for such an element. -/
theorem empty_items_rendering (e : Element) (pre post : List Element)
    (hkind : e.elType = "bullet_list" ∨ e.elType = "numbered_list")
    (hitems : e.items = []) :
    txtElementLines e = [""] ∧
    docxElementOps e = [] ∧
    pdfElementOps e = some [] ∧
    (pre ++ post ≠ [] →
      ∃ a b, generate_txt ⟨some (pre ++ post)⟩ = a ++ b ∧
        generate_txt ⟨some (pre ++ e :: post)⟩ = a ++ "\n" ++ b) ∧
    generate_txt ⟨some [e]⟩ = generate_txt ⟨some []⟩ := by
  have hb : e.elType ≠ "heading1" ∧ e.elType ≠ "heading2"
      ∧ e.elType ≠ "heading3" := by
    rcases hkind with hk | hk <;> rw [hk] <;> exact ⟨by decide, by decide, by decide⟩
  have htxt : txtElementLines e = [""] := by
    unfold txtElementLines
    rw [if_neg hb.1, if_neg hb.2.1, if_neg hb.2.2]
    rcases hkind with hk | hk
    · rw [if_pos hk, hitems]
      rfl
    · have hnb : e.elType ≠ "bullet_list" := by rw [hk]; decide
      rw [if_neg hnb, if_pos hk, hitems]
      rfl
  have hdocx : docxElementOps e = [] := by
    unfold docxElementOps
    rw [if_neg hb.1, if_neg hb.2.1, if_neg hb.2.2]
    rcases hkind with hk | hk
    · rw [if_pos hk, hitems]
      rfl
    · have hnb : e.elType ≠ "bullet_list" := by rw [hk]; decide
      rw [if_neg hnb, if_pos hk, hitems]
      rfl
  have hpdf : pdfElementOps e = some [] := by
    unfold pdfElementOps
    have hor : ¬ (e.elType = "heading1" ∨ e.elType = "heading2"
        ∨ e.elType = "heading3") := by simp [hb.1, hb.2.1, hb.2.2]
    rw [if_neg hor]
    rcases hkind with hk | hk
    · rw [if_pos hk, hitems]
      rfl
    · have hnb : e.elType ≠ "bullet_list" := by rw [hk]; decide
      rw [if_neg hnb, if_pos hk, hitems]
      rfl
  refine ⟨htxt, hdocx, hpdf, ?_, ?_⟩
  · intro hne
    by_cases hpre : pre = []
    · subst hpre
      have hpost : post ≠ [] := by simpa using hne
      have hL2 : post.flatMap txtElementLines ≠ [] := txtLines_ne_nil post hpost
      refine ⟨"", joinLines (post.flatMap txtElementLines), ?_, ?_⟩
      · simp [generate_txt, Structure.elements]
      · simp only [generate_txt, Structure.elements, Option.getD_some,
          List.nil_append, List.flatMap_cons, htxt]
        rw [joinLines_append [""] _ (by simp) hL2]
        simp [joinLines]
    · by_cases hpost : post = []
      · subst hpost
        have hL1 : pre.flatMap txtElementLines ≠ [] := txtLines_ne_nil pre hpre
        refine ⟨joinLines (pre.flatMap txtElementLines), "", ?_, ?_⟩
        · simp [generate_txt, Structure.elements]
        · simp only [generate_txt, Structure.elements, Option.getD_some,
            List.flatMap_append, List.flatMap_cons, List.flatMap_nil,
            List.append_nil, htxt]
          rw [joinLines_append _ [""] hL1 (by simp)]
          simp [joinLines]
      · have hL1 : pre.flatMap txtElementLines ≠ [] := txtLines_ne_nil pre hpre
        have hL2 : post.flatMap txtElementLines ≠ [] := txtLines_ne_nil post hpost
        refine ⟨joinLines (pre.flatMap txtElementLines),
                "\n" ++ joinLines (post.flatMap txtElementLines), ?_, ?_⟩
        · simp only [generate_txt, Structure.elements, Option.getD_some,
            List.flatMap_append]
          rw [joinLines_append _ _ hL1 hL2]
          simp [String.append_assoc]
        · simp only [generate_txt, Structure.elements, Option.getD_some,
            List.flatMap_append, List.flatMap_cons, htxt]
          rw [joinLines_append _ _ hL1
              (by simp : ([""] ++ post.flatMap txtElementLines) ≠ []),
            joinLines_append [""] _ (by simp) hL2]
          simp [joinLines, String.append_assoc]
  · simp [generate_txt, Structure.elements, htxt, joinLines]

/-- C10 witness: instantiating the amended statement at an empty numbered
list between a heading and a paragraph. -/
theorem empty_items_rendering_witness :
    txtElementLines ⟨some "numbered_list", none, some []⟩ = [""] ∧
    docxElementOps ⟨some "numbered_list", none, some []⟩ = [] ∧
    pdfElementOps ⟨some "numbered_list", none, some []⟩ = some [] ∧
    ([⟨some "heading1", some "T", none⟩] ++ [(⟨none, some "p", none⟩ : Element)] ≠ [] →
      ∃ a b, generate_txt ⟨some ([⟨some "heading1", some "T", none⟩]
            ++ [⟨none, some "p", none⟩])⟩ = a ++ b ∧
        generate_txt ⟨some ([⟨some "heading1", some "T", none⟩]
            ++ ⟨some "numbered_list", none, some []⟩ :: [⟨none, some "p", none⟩])⟩
          = a ++ "\n" ++ b) ∧
    generate_txt ⟨some [⟨some "numbered_list", none, some []⟩]⟩
      = generate_txt ⟨some []⟩ := by
  exact empty_items_rendering ⟨some "numbered_list", none, some []⟩
    [⟨some "heading1", some "T", none⟩] [⟨none, some "p", none⟩]
    (by decide) (by decide)

/-- C5: the merged element list is the in-order flattening of the
per-unit contributions, where a unit with empty OCR text contributes
nothing and causes no failure; and in the scenario of two image files plus
a PDF expanding to three pages of which one is blank, the classification
yields the five units in order and the merge contains the elements of
exactly the four non-blank units, in unit order. -/
theorem empty_ocr_unit_skipped (env : Env β) (imgs : List β)
    (f1 f2 fp : UploadFile β) (p1 p2 p3 : β)
    (hi1 : f1.contentType.getD "" ∈ ALLOWED_IMAGE_TYPES)
    (hi2 : f2.contentType.getD "" ∈ ALLOWED_IMAGE_TYPES)
    (hp : fp.contentType.getD "" = ALLOWED_PDF_TYPE)
    (hx : env.extractImages fp.content = [p1, p2, p3])
    (h1 : env.ocr f1.content ≠ "") (h2 : env.ocr f2.content ≠ "")
    (hq1 : env.ocr p1 ≠ "") (hq2 : env.ocr p2 = "") (hq3 : env.ocr p3 ≠ "") :
    mergeOcr env imgs = imgs.flatMap (fun u =>
      if env.ocr u = "" then []
      else (env.extractStructure (env.ocr u)).elements) ∧
    collectImages env [f1, f2, fp] = .ok [f1.content, f2.content, p1, p2, p3] ∧
    mergeOcr env [f1.content, f2.content, p1, p2, p3]
      = (env.extractStructure (env.ocr f1.content)).elements
        ++ (env.extractStructure (env.ocr f2.content)).elements
        ++ (env.extractStructure (env.ocr p1)).elements
        ++ (env.extractStructure (env.ocr p3)).elements := by
  refine ⟨mergeOcr_eq_flatMap env imgs, ?_, ?_⟩
  · unfold collectImages
    rw [if_neg (image_type_ne_pdf _ hi1), if_pos hi1]
    unfold collectImages
    rw [if_neg (image_type_ne_pdf _ hi2), if_pos hi2]
    unfold collectImages
    rw [if_pos hp, hx]
    rfl
  · rw [mergeOcr_eq_flatMap]
    simp only [List.flatMap_cons, List.flatMap_nil]
    rw [if_neg h1, if_neg h2, if_neg hq1, if_pos hq2, if_neg hq3]
    simp [List.append_assoc]

/-- C5 witness: the scenario instantiated in `wEnv`, where the blank unit
is PDF page `102`. -/
theorem empty_ocr_unit_skipped_witness :
    mergeOcr wEnv [1, 102] = [1, 102].flatMap (fun u =>
      if wEnv.ocr u = "" then []
      else (wEnv.extractStructure (wEnv.ocr u)).elements) ∧
    collectImages wEnv wfilesMixed = .ok [1, 2, 101, 102, 103] ∧
    mergeOcr wEnv [1, 2, 101, 102, 103]
      = (wEnv.extractStructure (wEnv.ocr 1)).elements
        ++ (wEnv.extractStructure (wEnv.ocr 2)).elements
        ++ (wEnv.extractStructure (wEnv.ocr 101)).elements
        ++ (wEnv.extractStructure (wEnv.ocr 103)).elements := by
  exact empty_ocr_unit_skipped wEnv [1, 102]
    ⟨some "image/png", some "a.png", 1⟩ ⟨some "image/jpeg", some "b.jpg", 2⟩
    ⟨some "application/pdf", some "c.pdf", 3⟩ 101 102 103
    (by decide) (by decide) (by decide) (by decide)
    (by decide) (by decide) (by decide) (by decide) (by decide)

/-- C6: an upload containing a file whose declared MIME type is neither a
recognized image type nor `application/pdf` makes `convert_files` fail
with `UnsupportedFileType`, whose detail string contains the offending
declared type, before any OCR call is made. -/
theorem unsupported_file_fails_before_ocr (env : Env β)
    (files : List (UploadFile β)) (fmt : String)
    (trip : String × String × String)
    (hfmt : OUTPUT_FORMATS.lookup fmt = some trip)
    (hbad : ∃ f ∈ files, ¬ isSupportedType f) :
    ∃ f ∈ files, ¬ isSupportedType f ∧
      (convert env files fmt).result
        = .error (.unsupportedFileType (f.contentType.getD "")) ∧
      (∃ before after,
        (ConvertError.unsupportedFileType (f.contentType.getD "")).detail
          = before ++ f.contentType.getD "" ++ after) ∧
      (convert env files fmt).ocrCalls = [] := by
  obtain ⟨f, hmem, hnsupp, herr⟩ := collectImages_error_of_unsupported env files hbad
  obtain ⟨m, md, ext⟩ := trip
  have hconv : convert env files fmt
      = ⟨.error (.unsupportedFileType (f.contentType.getD "")), [], false⟩ := by
    unfold convert
    rw [hfmt, herr]
  rw [hconv]
  exact ⟨f, hmem, hnsupp, rfl,
    ⟨"Unsupported file type: ", ". Upload images or PDFs.", rfl⟩, rfl⟩

/-- C6 witness: the upload `wfilesBad`, whose second file is a `.gif`
declared as `application/json`, requested as TXT. -/
theorem unsupported_file_fails_before_ocr_witness :
    ∃ f ∈ wfilesBad, ¬ isSupportedType f ∧
      (convert wEnv wfilesBad "txt").result
        = .error (.unsupportedFileType (f.contentType.getD "")) ∧
      (∃ before after,
        (ConvertError.unsupportedFileType (f.contentType.getD "")).detail
          = before ++ f.contentType.getD "" ++ after) ∧
      (convert wEnv wfilesBad "txt").ocrCalls = [] := by
  exact unsupported_file_fails_before_ocr wEnv wfilesBad "txt"
    ("generate_txt", "text/plain; charset=utf-8", ".txt") (by decide)
    ⟨⟨some "application/json", some "a.gif", 7⟩, by decide, by decide⟩

/-- C7: when every collected image unit OCRs to empty text, the merged
element list is empty and `convert_files` fails with `NoTextDetected`; the
units were all OCR'd, no renderer was invoked, and no output is
produced. -/
theorem all_blank_fails_no_text (env : Env β) (files : List (UploadFile β))
    (fmt : String) (trip : String × String × String)
    (hfmt : OUTPUT_FORMATS.lookup fmt = some trip)
    (imgs : List β) (hc : collectImages env files = .ok imgs)
    (hne : imgs ≠ []) (hmerged : mergeOcr env imgs = []) :
    convert env files fmt = ⟨.error .noTextDetected, imgs, false⟩ ∧
    ((∀ b ∈ imgs, env.ocr b = "") → mergeOcr env imgs = []) := by
  obtain ⟨m, md, ext⟩ := trip
  have hie : imgs.isEmpty = false := List.isEmpty_eq_false.mpr hne
  constructor
  · unfold convert
    simp only [hfmt]
    simp only [hc]
    simp [hie, hmerged]
  · intro hocr
    rw [mergeOcr_eq_flatMap]
    rw [List.flatMap_eq_nil_iff]
    intro b hb
    rw [if_pos (hocr b hb)]

/-- C7 witness: one image file in the blank-OCR environment, requested as
PDF. -/
theorem all_blank_fails_no_text_witness :
    convert wEnvBlank [(⟨some "image/png", some "x.png", 1⟩ : UploadFile Nat)] "pdf"
      = ⟨.error .noTextDetected, [1], false⟩ ∧
    ((∀ b ∈ [(1 : Nat)], wEnvBlank.ocr b = "") → mergeOcr wEnvBlank [1] = []) := by
  exact all_blank_fails_no_text wEnvBlank
    [⟨some "image/png", some "x.png", 1⟩] "pdf"
    ("generate_pdf", "application/pdf", ".pdf") (by decide)
    [1] (by decide) (by decide) (by decide)

/-- C8: on success the output filename is the first input file's name with
its extension stripped, with `_and_{K}_more` appended when more than one
file was submitted (`K` the number of additional files), followed by the
chosen format's canonical extension; in particular 3 files with the first
named `report.png` yield `report_and_2_more` plus that extension. -/
theorem convert_output_filename (env : Env β) (files : List (UploadFile β))
    (fmt : String) (s : ConvertSuccess)
    (h : (convert env files fmt).result = .ok s) :
    ∃ m md ext, OUTPUT_FORMATS.lookup fmt = some (m, md, ext) ∧
      s.filename
        = (if files.length > 1 then
            splitextRoot (firstFilename files) ++ "_and_"
              ++ Nat.repr (files.length - 1) ++ "_more"
          else splitextRoot (firstFilename files)) ++ ext ∧
      (firstFilename files = "report.png" → files.length = 3 →
        s.filename = "report_and_2_more" ++ ext) := by
  unfold convert at h
  split at h
  · simp at h
  case _ m md ext heq =>
    split at h
    · simp at h
    case _ imgs heq2 =>
      split at h
      · simp at h
      · split at h
        · simp at h
        · split at h
          · simp at h
          case _ out heq3 =>
            simp only [Except.ok.injEq] at h
            refine ⟨m, md, ext, heq, ?_, ?_⟩
            · rw [← h]
            · intro hname hlen
              rw [← h, hname, hlen]
              have hbase : (if 3 > 1 then
                    splitextRoot "report.png" ++ "_and_"
                      ++ Nat.repr (3 - 1) ++ "_more"
                  else splitextRoot "report.png") = "report_and_2_more" := by
                decide
              rw [hbase]

/-- C8 witness: `convert wEnv wfiles3 "docx"` succeeds and names its
output `report_and_2_more.docx`. -/
theorem convert_output_filename_witness :
    (convert wEnv wfiles3 "docx").result = .ok wSuccess ∧
    wSuccess.filename = "report_and_2_more.docx" := by
  have h : (convert wEnv wfiles3 "docx").result = .ok wSuccess := by decide
  obtain ⟨m, md, ext, hlk, hfn, hrep⟩ :=
    convert_output_filename wEnv wfiles3 "docx" wSuccess h
  have hext : ext = ".docx" := by
    have hlk0 : OUTPUT_FORMATS.lookup "docx" = some ("generate_docx",
        "application/vnd.openxmlformats-officedocument.wordprocessingml.document",
        ".docx") := by decide
    rw [hlk0] at hlk
    injection hlk with hlk1
    injection hlk1 with hlk2 hlk3
    injection hlk3 with hlk4 hlk5
    exact hlk5.symm
  refine ⟨h, ?_⟩
  rw [hrep (by decide) (by decide), hext]
  decide

end DocuLens
